import Mathlib

/-!
Verification of the data-access core of the GitHub dashboard extension:
the retry/backoff REST client (`src/background/api-client.ts`), the TTL
cache (`src/background/cache-manager.ts` over `src/utils/storage.ts`),
the per-resource data service (`src/background/github-api.ts`) and the
message-routing orchestrator (`src/background/service-worker.ts`).

External effects (fetch outcomes, `Date.now()`, `chrome.storage`) are
passed explicitly: a request takes the list of fetch outcomes the network
would produce for its successive attempts, cache operations take the
current time and the storage state, and storage failure is modelled by
per-operation failure flags on the storage state.
-/

/-! ## API client (`src/background/api-client.ts`) -/

/-- Error body of a failed GitHub API response (`GitHubError` in
`src/types/api.ts`). -/
structure GitHubError where
  message : String
  documentation_url : Option String
deriving Repr, DecidableEq

/-- The typed error raised by the client (`class ApiError` — we keep the
`message` and `status` fields; the optional raw body is carried by the
response model). -/
structure ApiError where
  message : String
  status : Nat
deriving Repr, DecidableEq

/-- One HTTP response as the client observes it: the status code, the two
rate-limit/retry headers the 429 branch reads (already parsed to numbers;
`none` when the header is absent), the parsed JSON error body (if any),
the value of `Date.now()` at the moment the response is handled
(milliseconds), and the parsed JSON data used on success. -/
structure HttpResponse (T : Type) where
  status : Nat
  retryAfter : Option Nat
  rateLimitReset : Option Nat
  errorResponse : Option GitHubError
  now : Nat
  data : T
deriving Repr, DecidableEq

/-- `Response.ok` of the fetch API: status in the range 200–299. -/
def HttpResponse.ok {T : Type} (r : HttpResponse T) : Bool :=
  decide (200 ≤ r.status) && decide (r.status < 300)

/-- Outcome of one `fetch` call: the promise rejects with an abort
(timeout fired), rejects with a network error, or resolves to a response. -/
inductive FetchOutcome (T : Type) where
  | aborted
  | netFail (msg : String)
  | response (r : HttpResponse T)
deriving Repr, DecidableEq

/-- Successful result of `GitHubApiClient.request` (the `data` and
`status` fields of the source's `ApiResponse`). -/
structure ApiResponse (T : Type) where
  data : T
  status : Nat
deriving Repr, DecidableEq

def MAX_RETRIES : Nat := 3

def INITIAL_RETRY_DELAY : Nat := 1000

/-- `calculateRetryDelay`: exponential backoff
`INITIAL_RETRY_DELAY * 2 ** retryCount`. -/
def calculateRetryDelay (retryCount : Nat) : Nat :=
  INITIAL_RETRY_DELAY * 2 ^ retryCount

/-- Decision taken by `handleErrorResponse`: retry after a delay, or fail
with an `ApiError`. -/
inductive ErrorAction where
  | retry (delay : Nat)
  | fail (e : ApiError)
deriving Repr, DecidableEq

/-- `GitHubApiClient.handleErrorResponse` on a non-2xx response:
429 retries (when attempts remain) after `Retry-After` seconds, else
`X-RateLimit-Reset * 1000 - Date.now()` clamped at 0 (`Int.toNat` is
exactly `Math.max(0, ·)` here), else exponential backoff; status ≥ 500
retries with exponential backoff; everything else fails with the parsed
body message or `HTTP <status>`. -/
def handleErrorResponse {T : Type} (r : HttpResponse T) (retryCount : Nat) :
    ErrorAction :=
  let status := r.status
  let errMessage := r.errorResponse.map GitHubError.message
  if status = 429 then
    if retryCount < MAX_RETRIES then
      .retry (match r.retryAfter with
        | some retryAfter => retryAfter * 1000
        | none => match r.rateLimitReset with
          | some resetTime => ((resetTime * 1000 : Int) - (r.now : Int)).toNat
          | none => calculateRetryDelay retryCount)
    else
      .fail ⟨errMessage.getD "Rate limit exceeded", status⟩
  else if 500 ≤ status ∧ retryCount < MAX_RETRIES then
    .retry (calculateRetryDelay retryCount)
  else
    .fail ⟨errMessage.getD ("HTTP " ++ toString status), status⟩

/-- Observable trace of one logical `request`: how many fetches were
issued and the successive sleep durations between attempts. -/
structure RequestTrace where
  attempts : Nat
  delays : List Nat
deriving Repr, DecidableEq

/-- `GitHubApiClient.request` with explicit environment: `outcomes` lists
the fetch outcome of each successive attempt (an adequate environment
supplies one outcome per attempt; the empty-list case is unreachable
then). An abort throws `Request timeout` (408) without retrying; another
rejection retries with exponential backoff while `retryCount <
MAX_RETRIES`, else throws a status-0 network `ApiError`; a 2xx response
succeeds; any other response is handled by `handleErrorResponse`. -/
def request {T : Type} (outcomes : List (FetchOutcome T)) (retryCount : Nat) :
    Except ApiError (ApiResponse T) × RequestTrace :=
  match outcomes with
  | [] => (.error ⟨"Network error: no outcome", 0⟩, ⟨0, []⟩)
  | o :: rest =>
    match o with
    | .aborted => (.error ⟨"Request timeout", 408⟩, ⟨1, []⟩)
    | .netFail msg =>
      if retryCount < MAX_RETRIES then
        let d := calculateRetryDelay retryCount
        let r := request rest (retryCount + 1)
        (r.1, ⟨r.2.attempts + 1, d :: r.2.delays⟩)
      else
        (.error ⟨"Network error: " ++ msg, 0⟩, ⟨1, []⟩)
    | .response resp =>
      if resp.ok then
        (.ok ⟨resp.data, resp.status⟩, ⟨1, []⟩)
      else
        match handleErrorResponse resp retryCount with
        | .retry d =>
          let r := request rest (retryCount + 1)
          (r.1, ⟨r.2.attempts + 1, d :: r.2.delays⟩)
        | .fail e => (.error e, ⟨1, []⟩)

/-! ## Resource records (`src/types/api.ts`) -/

/-- Owner sub-object of a repository. -/
structure Owner where
  login : String
  type : String
deriving Repr, DecidableEq

/-- GitHub repository record. The source field `private` is a Lean
keyword and is embedded as `isPrivate`. -/
structure Repository where
  id : Nat
  name : String
  full_name : String
  owner : Owner
  html_url : String
  description : Option String
  isPrivate : Bool
  updated_at : String
  pushed_at : String
  stargazers_count : Nat
  language : Option String
deriving Repr, DecidableEq

/-- GitHub user record. -/
structure User where
  login : String
  id : Nat
  avatar_url : String
  html_url : String
  name : Option String
  email : Option String
deriving Repr, DecidableEq

/-- GitHub organization record. -/
structure Organization where
  login : String
  id : Nat
  avatar_url : String
  description : Option String
deriving Repr, DecidableEq

/-- GitHub issue label record. -/
structure Label where
  id : Nat
  name : String
  color : String
  description : Option String
deriving Repr, DecidableEq

/-- The `open`/`closed` state of an issue or project. -/
inductive IssueState where
  | open
  | closed
deriving Repr, DecidableEq

/-- Optional embedded repository reference of an issue. -/
structure RepositoryRef where
  name : String
  full_name : String
deriving Repr, DecidableEq

/-- GitHub issue record. -/
structure Issue where
  id : Nat
  number : Nat
  title : String
  state : IssueState
  html_url : String
  repository_url : String
  user : User
  labels : List Label
  created_at : String
  updated_at : String
  repository : Option RepositoryRef
deriving Repr, DecidableEq

/-- GitHub classic project record. -/
structure Project where
  id : Nat
  name : String
  body : Option String
  state : IssueState
  html_url : String
  created_at : String
  updated_at : String
  creator : User
deriving Repr, DecidableEq

/-! ## Storage layer (`src/utils/storage.ts`) and cache
(`src/background/cache-manager.ts`)

`chrome.storage.local` is modelled as an association list of cache
entries (the cache only ever stores `CacheEntry` values under its
namespaced keys) together with three failure flags telling whether the
underlying store's get / set / remove primitives throw. -/

/-- `CacheEntry<T>` (`src/types/settings.ts`, used by the cache manager):
`timestamp` is `Date.now()` at `set` time, `ttl` is in milliseconds. -/
structure CacheEntry (T : Type) where
  data : T
  timestamp : Nat
  ttl : Nat
deriving Repr, DecidableEq

/-- State of `chrome.storage.local` plus failure flags for its three
primitives. -/
structure ChromeStorage (T : Type) where
  entries : List (String × CacheEntry T)
  failGet : Bool
  failSet : Bool
  failRemove : Bool
deriving Repr, DecidableEq

/-- `getData` of `src/utils/storage.ts`: returns the stored value, or
`null` both when the key is absent and when the underlying get throws
(the catch converts the failure to `null`). -/
def getData {T : Type} (key : String) (s : ChromeStorage T) :
    Option (CacheEntry T) :=
  if s.failGet then none else s.entries.lookup key

/-- `saveData`: rethrows a storage failure as an error, otherwise
overwrites the key. -/
def saveData {T : Type} (key : String) (entry : CacheEntry T)
    (s : ChromeStorage T) : Except String (ChromeStorage T) :=
  if s.failSet then .error ("データの保存に失敗しました: " ++ key)
  else .ok { s with entries := (key, entry) :: s.entries.filter (fun kv => kv.1 != key) }

/-- `removeData`: rethrows a storage failure as an error, otherwise
removes the key. -/
def removeData {T : Type} (key : String) (s : ChromeStorage T) :
    Except String (ChromeStorage T) :=
  if s.failRemove then .error ("データの削除に失敗しました: " ++ key)
  else .ok { s with entries := s.entries.filter (fun kv => kv.1 != key) }

/-- The cache key namespace (source constant `CACHE_KEY_` + `PREFIX`,
value `"cache_"`). -/
def cacheNamespace : String := "cache_"

def DEFAULT_TTL : Nat := 5 * 60

namespace CacheManager

/-- `CacheManager.getCacheKey`. -/
def getCacheKey (key : String) : String := cacheNamespace ++ key

/-- `CacheManager.set`: wraps the data in a `CacheEntry` stamped with the
current time and the TTL converted from seconds to milliseconds, then
persists it; a storage failure is caught and the write silently skipped. -/
def set {T : Type} (key : String) (data : T) (ttl : Nat) (now : Nat)
    (s : ChromeStorage T) : ChromeStorage T :=
  let cacheKey := getCacheKey key
  let entry : CacheEntry T := ⟨data, now, ttl * 1000⟩
  match saveData cacheKey entry s with
  | .ok s2 => s2
  | .error _ => s

/-- `CacheManager.delete`: removes the namespaced key; a storage failure
is caught and ignored. -/
def delete {T : Type} (key : String) (s : ChromeStorage T) : ChromeStorage T :=
  match removeData (getCacheKey key) s with
  | .ok s2 => s2
  | .error _ => s

/-- `CacheManager.get`: a missing entry is a miss; an entry whose age
`now - timestamp` exceeds its `ttl` is expired — it is deleted and
reported as a miss; otherwise the stored data is returned. A failure of
the underlying get already surfaces as `null` inside `getData`. -/
def get {T : Type} (key : String) (now : Nat) (s : ChromeStorage T) :
    Option T × ChromeStorage T :=
  match getData (getCacheKey key) s with
  | none => (none, s)
  | some entry =>
    let age : Int := (now : Int) - (entry.timestamp : Int)
    if age > (entry.ttl : Int) then
      (none, delete key s)
    else
      (some entry.data, s)

/-- `CacheManager.clearAll`: enumerates all stored keys, filters those
under the cache namespace, and removes them in one batch; any storage
failure is caught and leaves the store unchanged. -/
def clearAll {T : Type} (s : ChromeStorage T) : ChromeStorage T :=
  if s.failGet then s
  else
    let cacheKeys := (s.entries.map Prod.fst).filter
      (fun k => k.startsWith cacheNamespace)
    if cacheKeys.length > 0 then
      if s.failRemove then s
      else
        { s with entries :=
            s.entries.filter (fun kv => !(kv.1.startsWith cacheNamespace)) }
    else s

end CacheManager

/-! ## Data service (`src/background/github-api.ts`)

Each fetch takes the client outcome as an `Except ApiError` value (the
result the awaited `client.get` call would produce), the `Date.now()`
values observed at the cache read and the cache write, and the storage
state. The repository fetch additionally takes the page environment
`pages : Nat → Except ApiError (List Repository)` giving the `data` of
`client.get` on `/user/repos?...&page=p`. -/

/-- `fetchUser`: cache hit short-circuits; otherwise the client result is
cached for 5 minutes and returned, and a client error propagates. -/
def fetchUser (clientGet : Except ApiError User) (tGet tSet : Nat)
    (s : ChromeStorage User) : Except ApiError (User × ChromeStorage User) :=
  match CacheManager.get "user" tGet s with
  | (some cached, s2) => .ok (cached, s2)
  | (none, s2) =>
    match clientGet with
    | .error e => .error e
    | .ok u => .ok (u, CacheManager.set "user" u (5 * 60) tSet s2)

/-- `fetchOrganizations`: same read-through shape as `fetchUser` under the
key `organizations`. -/
def fetchOrganizations (clientGet : Except ApiError (List Organization))
    (tGet tSet : Nat) (s : ChromeStorage (List Organization)) :
    Except ApiError (List Organization × ChromeStorage (List Organization)) :=
  match CacheManager.get "organizations" tGet s with
  | (some cached, s2) => .ok (cached, s2)
  | (none, s2) =>
    match clientGet with
    | .error e => .error e
    | .ok orgs => .ok (orgs, CacheManager.set "organizations" orgs (5 * 60) tSet s2)

/-- `fetchMentionedIssues`: same read-through shape under the key
`issues_mentioned`. -/
def fetchMentionedIssues (clientGet : Except ApiError (List Issue))
    (tGet tSet : Nat) (s : ChromeStorage (List Issue)) :
    Except ApiError (List Issue × ChromeStorage (List Issue)) :=
  match CacheManager.get "issues_mentioned" tGet s with
  | (some cached, s2) => .ok (cached, s2)
  | (none, s2) =>
    match clientGet with
    | .error e => .error e
    | .ok issues => .ok (issues, CacheManager.set "issues_mentioned" issues (5 * 60) tSet s2)

/-- `fetchProjects`: same read-through shape under the key `projects`,
except that the whole client call is wrapped in a try/catch that
downgrades any failure to an empty list (and then writes no cache entry). -/
def fetchProjects (clientGet : Except ApiError (List Project))
    (tGet tSet : Nat) (s : ChromeStorage (List Project)) :
    Except ApiError (List Project × ChromeStorage (List Project)) :=
  match CacheManager.get "projects" tGet s with
  | (some cached, s2) => .ok (cached, s2)
  | (none, s2) =>
    match clientGet with
    | .ok data => .ok (data, CacheManager.set "projects" data (5 * 60) tSet s2)
    | .error _ => .ok ([], s2)

def perPage : Nat := 100

/-- The `while (true)` pagination loop of `fetchRepositories`, unrolled
on a fuel argument: the loop requests page `page`; an empty page or a
page shorter than `perPage` ends the draining, as does the guard
`page + 1 > 10`; a thrown client error propagates out of the loop. The
second component records the pages actually requested, in order. Called
with `fuel = 10` from page 1, the fuel never runs out before the page
guard stops the loop, so the
fuel-0 base case is unreachable from `fetchRepositories`. -/
def fetchRepositoriesLoop (pages : Nat → Except ApiError (List Repository)) :
    Nat → Nat → List Repository →
    Except ApiError (List Repository) × List Nat
  | _, 0, acc => (.ok acc, [])
  | page, fuel + 1, acc =>
    match pages page with
    | .error e => (.error e, [page])
    | .ok response =>
      if response.length = 0 then (.ok acc, [page])
      else
        let acc2 := acc ++ response
        if response.length < perPage then (.ok acc2, [page])
        else if page + 1 > 10 then (.ok acc2, [page])
        else
          let r := fetchRepositoriesLoop pages (page + 1) fuel acc2
          (r.1, page :: r.2)

/-- `fetchRepositories`: cache hit short-circuits; otherwise all pages
are drained starting at page 1, the concatenation is cached for
5 minutes, and a client error propagates. -/
def fetchRepositories (pages : Nat → Except ApiError (List Repository))
    (tGet tSet : Nat) (s : ChromeStorage (List Repository)) :
    Except ApiError (List Repository × ChromeStorage (List Repository)) × List Nat :=
  match CacheManager.get "repositories" tGet s with
  | (some cached, s2) => (.ok (cached, s2), [])
  | (none, s2) =>
    match fetchRepositoriesLoop pages 1 10 [] with
    | (.error e, reqs) => (.error e, reqs)
    | (.ok allRepos, reqs) =>
      (.ok (allRepos, CacheManager.set "repositories" allRepos (5 * 60) tSet s2), reqs)

/-- `sortRepositoriesByUpdated`. JavaScript `Array.prototype.sort` is a
stable sort ordered by the comparator, here
`new Date(b.updated_at) - new Date(a.updated_at)`; `getTime` is the
ambient `new Date(·).getTime()` parser, passed explicitly. -/
def sortRepositoriesByUpdated (getTime : String → Int)
    (repositories : List Repository) : List Repository :=
  repositories.mergeSort
    (fun a b => decide (getTime b.updated_at ≤ getTime a.updated_at))

/-- `sortIssuesByUpdated`: same stable descending sort for issues. -/
def sortIssuesByUpdated (getTime : String → Int) (issues : List Issue) :
    List Issue :=
  issues.mergeSort
    (fun a b => decide (getTime b.updated_at ≤ getTime a.updated_at))

/-- `sortProjectsByUpdated`: same stable descending sort for projects. -/
def sortProjectsByUpdated (getTime : String → Int) (projects : List Project) :
    List Project :=
  projects.mergeSort
    (fun a b => decide (getTime b.updated_at ≤ getTime a.updated_at))

/-! ## Orchestrator (`src/background/service-worker.ts`) -/

/-- The settings object, reduced to the field the background script
reads (`settings.token`; the renderer-facing fields are outside the
data-access core). -/
structure Settings where
  token : String
deriving Repr, DecidableEq

/-- The kind of data requested by a `GET_DATA` message. -/
inductive DataType where
  | repositories
  | issues
  | projects
  | all
deriving Repr, DecidableEq

/-- Runtime messages received by the service worker (`Message` in
`src/types/messages.ts`). `unknown` stands for any runtime message whose
type tag is none of the known kinds — the TypeScript union is closed, but
the listener receives untyped data, which is why the switch has a default
branch. -/
inductive Message where
  | GET_SETTINGS
  | SAVE_SETTINGS (settings : Settings)
  | SAVE_TOKEN (token : String)
  | VALIDATE_TOKEN
  | GET_DATA (dataType : DataType)
  | REFRESH_DATA
  | unknown (typeName : String)
deriving Repr, DecidableEq

/-- Response payloads produced by the individual message handlers. -/
inductive Payload where
  | settingsData (s : Settings)
  | ack
  | validation (valid : Bool) (message : Option String)
  | dashboardData
  | refreshed (message : String)
deriving Repr, DecidableEq

/-- Outcomes of the effectful handler bodies, supplied by the
environment: `getSettings` never throws (it falls back to defaults),
`handleValidateToken` never throws (it catches and reports a value), the
save handlers and the `handleGetData` body may throw with an error
message. -/
structure HandlerEnv where
  settings : Settings
  saveSettingsResult : Except String Unit
  saveTokenResult : Except String Unit
  validateTokenResult : Bool × Option String
  getDataResult : Except String Unit
deriving Repr

/-- `handleMessage`: dispatch on the message type; the default branch
throws `Unknown message type: <type>`. -/
def handleMessage (m : Message) (env : HandlerEnv) : Except String Payload :=
  match m with
  | .GET_SETTINGS => .ok (.settingsData env.settings)
  | .SAVE_SETTINGS _ =>
    match env.saveSettingsResult with
    | .ok _ => .ok .ack
    | .error e => .error e
  | .SAVE_TOKEN _ =>
    match env.saveTokenResult with
    | .ok _ => .ok .ack
    | .error e => .error e
  | .VALIDATE_TOKEN =>
    .ok (.validation env.validateTokenResult.1 env.validateTokenResult.2)
  | .GET_DATA _ =>
    match env.getDataResult with
    | .ok _ => .ok .dashboardData
    | .error e => .error e
  | .REFRESH_DATA => .ok (.refreshed "キャッシュをクリアしました")
  | .unknown t => .error ("Unknown message type: " ++ t)

/-- The uniform response envelope sent back by the message listener. -/
structure Envelope where
  success : Bool
  data : Option Payload
  error : Option String
deriving Repr, DecidableEq

/-- The `chrome.runtime.onMessage` listener: resolve to
`{success: true, data}`, reject to `{success: false, error}`. -/
def onMessageResponse (m : Message) (env : HandlerEnv) : Envelope :=
  match handleMessage m env with
  | .ok d => ⟨true, some d, none⟩
  | .error e => ⟨false, none, some e⟩

/-! ## Theorems -/

/-- C6: every HTTP 4xx response other than 429 is terminal — regardless
of the attempt count, the request fails immediately with the typed
`ApiError` carrying that status (and the parsed body message, falling
back to `HTTP <status>`), exactly one fetch is issued, and no retry
sleep happens. -/
theorem client_4xx_terminal {T : Type} (r : HttpResponse T)
    (rest : List (FetchOutcome T)) (retryCount : Nat)
    (h400 : 400 ≤ r.status) (h500 : r.status < 500) (h429 : r.status ≠ 429) :
    request (.response r :: rest) retryCount =
      (.error ⟨(r.errorResponse.map GitHubError.message).getD
          ("HTTP " ++ toString r.status), r.status⟩,
       ⟨1, []⟩) := by
  have hok : r.ok = false := by
    simp only [HttpResponse.ok, Bool.and_eq_false_iff, decide_eq_false_iff_not]
    omega
  have hnot500 : ¬ (500 ≤ r.status ∧ retryCount < MAX_RETRIES) := by omega
  simp [request, hok, handleErrorResponse, h429, hnot500]

/-- C6 witness: a single 404 with an unparsable body fails on the first
attempt with `HTTP 404`. -/
theorem client_4xx_terminal_witness :
    request [FetchOutcome.response
        (⟨404, none, none, none, 0, ()⟩ : HttpResponse Unit)] 0 =
      (.error ⟨"HTTP 404", 404⟩, ⟨1, []⟩) := by
  have h := client_4xx_terminal (⟨404, none, none, none, 0, ()⟩ : HttpResponse Unit)
    [] 0 (by decide) (by decide) (by decide)
  simpa using h

/-- C2: the delay slept before re-issuing a retried attempt `n` is:
for HTTP 429, `Retry-After * 1000` when that header is present, else
`max 0 (X-RateLimit-Reset * 1000 - Date.now())`, else `1000 * 2 ^ n`;
for HTTP ≥ 500 and for network failures, always `1000 * 2 ^ n`. -/
theorem retried_attempt_delay :
    (∀ (T : Type) (r : HttpResponse T) (rest : List (FetchOutcome T)) (n ra : Nat),
       n < MAX_RETRIES → r.status = 429 → r.retryAfter = some ra →
       (request (.response r :: rest) n).2.delays.head? = some (ra * 1000))
  ∧ (∀ (T : Type) (r : HttpResponse T) (rest : List (FetchOutcome T)) (n rs : Nat),
       n < MAX_RETRIES → r.status = 429 → r.retryAfter = none →
       r.rateLimitReset = some rs →
       (request (.response r :: rest) n).2.delays.head? =
         some ((max 0 ((rs * 1000 : Int) - (r.now : Int))).toNat))
  ∧ (∀ (T : Type) (r : HttpResponse T) (rest : List (FetchOutcome T)) (n : Nat),
       n < MAX_RETRIES → r.status = 429 → r.retryAfter = none →
       r.rateLimitReset = none →
       (request (.response r :: rest) n).2.delays.head? = some (1000 * 2 ^ n))
  ∧ (∀ (T : Type) (r : HttpResponse T) (rest : List (FetchOutcome T)) (n : Nat),
       n < MAX_RETRIES → 500 ≤ r.status →
       (request (.response r :: rest) n).2.delays.head? = some (1000 * 2 ^ n))
  ∧ (∀ (T : Type) (msg : String) (rest : List (FetchOutcome T)) (n : Nat),
       n < MAX_RETRIES →
       (request (.netFail msg :: rest) n).2.delays.head? = some (1000 * 2 ^ n)) := by
  refine ⟨?_, ?_, ?_, ?_, ?_⟩
  · intro T r rest n ra hn h429 hra
    have hok : r.ok = false := by
      simp only [HttpResponse.ok, Bool.and_eq_false_iff, decide_eq_false_iff_not]
      omega
    simp [request, hok, handleErrorResponse, h429, hra, hn]
  · intro T r rest n rs hn h429 hra hrs
    have hok : r.ok = false := by
      simp only [HttpResponse.ok, Bool.and_eq_false_iff, decide_eq_false_iff_not]
      omega
    have hmax : (max 0 ((rs * 1000 : Int) - (r.now : Int))).toNat =
        ((rs * 1000 : Int) - (r.now : Int)).toNat := by
      rcases le_total 0 ((rs * 1000 : Int) - (r.now : Int)) with h | h
      · rw [max_eq_right h]
      · rw [max_eq_left h]
        omega
    simp [request, hok, handleErrorResponse, h429, hra, hrs, hn, hmax]
  · intro T r rest n hn h429 hra hrs
    have hok : r.ok = false := by
      simp only [HttpResponse.ok, Bool.and_eq_false_iff, decide_eq_false_iff_not]
      omega
    simp [request, hok, handleErrorResponse, h429, hra, hrs, hn,
      calculateRetryDelay, INITIAL_RETRY_DELAY]
  · intro T r rest n hn h500
    have hok : r.ok = false := by
      simp only [HttpResponse.ok, Bool.and_eq_false_iff, decide_eq_false_iff_not]
      omega
    have h429 : r.status ≠ 429 := by omega
    simp [request, hok, handleErrorResponse, h429, h500, hn,
      calculateRetryDelay, INITIAL_RETRY_DELAY]
  · intro T msg rest n hn
    simp [request, hn, calculateRetryDelay, INITIAL_RETRY_DELAY]

/-- C2 witness: the three 429 delay sources and the backoff delay,
evaluated at attempt 1: a `Retry-After: 2` header gives 2000 ms, a
reset 3 seconds past an epoch of 1000 ms gives 2000 ms, no header gives
`1000 * 2 ^ 1` = 2000 ms, and a 500 gives 2000 ms. -/
theorem retried_attempt_delay_witness :
    (request [FetchOutcome.response
        (⟨429, some 2, none, none, 0, ()⟩ : HttpResponse Unit)] 1).2.delays.head? =
      some 2000
    ∧ (request [FetchOutcome.response
        (⟨429, none, some 3, none, 1000, ()⟩ : HttpResponse Unit)] 1).2.delays.head? =
      some 2000
    ∧ (request [FetchOutcome.response
        (⟨429, none, none, none, 0, ()⟩ : HttpResponse Unit)] 1).2.delays.head? =
      some 2000
    ∧ (request [FetchOutcome.response
        (⟨500, none, none, none, 0, ()⟩ : HttpResponse Unit)] 1).2.delays.head? =
      some 2000
    ∧ (request [FetchOutcome.netFail "connection reset"] 1
        : Except ApiError (ApiResponse Unit) × RequestTrace).2.delays.head? =
      some 2000 := by
  refine ⟨?_, ?_, ?_, ?_, ?_⟩
  · have h := retried_attempt_delay.1 Unit
      (⟨429, some 2, none, none, 0, ()⟩ : HttpResponse Unit) [] 1 2
      (by decide) rfl rfl
    simpa using h
  · have h := retried_attempt_delay.2.1 Unit
      (⟨429, none, some 3, none, 1000, ()⟩ : HttpResponse Unit) [] 1 3
      (by decide) rfl rfl rfl
    simpa using h
  · have h := retried_attempt_delay.2.2.1 Unit
      (⟨429, none, none, none, 0, ()⟩ : HttpResponse Unit) [] 1
      (by decide) rfl rfl rfl
    simpa using h
  · have h := retried_attempt_delay.2.2.2.1 Unit
      (⟨500, none, none, none, 0, ()⟩ : HttpResponse Unit) [] 1
      (by decide) (by decide)
    simpa using h
  · have h := retried_attempt_delay.2.2.2.2 Unit "connection reset" [] 1
      (by decide)
    simpa using h

/-- C1: a logical GET whose first four attempts all receive HTTP 429
with `Retry-After: 2` sleeps exactly 2000 ms (hence at least 2000 ms)
between consecutive attempts, retries exactly `MAX_RETRIES` = 3 eligible
failures (one sleep per retried failure; the fourth failure occurs at
attempt count `MAX_RETRIES` and is ineligible, so the client gives up
there after `MAX_RETRIES + 1` fetches), and surfaces an `ApiError`
carrying the last observed status code and body message. -/
theorem rate_limited_gives_up_after_max_retries {T : Type}
    (r1 r2 r3 r4 : HttpResponse T) (rest : List (FetchOutcome T))
    (h1 : r1.status = 429) (h1a : r1.retryAfter = some 2)
    (h2 : r2.status = 429) (h2a : r2.retryAfter = some 2)
    (h3 : r3.status = 429) (h3a : r3.retryAfter = some 2)
    (h4 : r4.status = 429) (h4a : r4.retryAfter = some 2) :
    request (.response r1 :: .response r2 :: .response r3 :: .response r4 :: rest) 0 =
      (.error ⟨(r4.errorResponse.map GitHubError.message).getD "Rate limit exceeded",
          r4.status⟩,
       ⟨MAX_RETRIES + 1, [2000, 2000, 2000]⟩)
    ∧ (request (.response r1 :: .response r2 :: .response r3 :: .response r4 :: rest)
        0).2.delays.length = MAX_RETRIES
    ∧ ∀ d ∈ (request (.response r1 :: .response r2 :: .response r3 :: .response r4 :: rest)
        0).2.delays, 2000 ≤ d := by
  have hok1 : r1.ok = false := by
    simp only [HttpResponse.ok, Bool.and_eq_false_iff, decide_eq_false_iff_not]
    omega
  have hok2 : r2.ok = false := by
    simp only [HttpResponse.ok, Bool.and_eq_false_iff, decide_eq_false_iff_not]
    omega
  have hok3 : r3.ok = false := by
    simp only [HttpResponse.ok, Bool.and_eq_false_iff, decide_eq_false_iff_not]
    omega
  have hok4 : r4.ok = false := by
    simp only [HttpResponse.ok, Bool.and_eq_false_iff, decide_eq_false_iff_not]
    omega
  have hmain :
      request (.response r1 :: .response r2 :: .response r3 :: .response r4 :: rest) 0 =
        (.error ⟨(r4.errorResponse.map GitHubError.message).getD "Rate limit exceeded",
            r4.status⟩,
         ⟨MAX_RETRIES + 1, [2000, 2000, 2000]⟩) := by
    simp [request, hok1, hok2, hok3, hok4, handleErrorResponse,
      h1, h1a, h2, h2a, h3, h3a, h4, h4a, MAX_RETRIES]
  refine ⟨hmain, ?_, ?_⟩
  · rw [hmain]
    rfl
  · rw [hmain]
    intro d hd
    simp only [List.mem_cons, List.not_mem_nil, or_false] at hd
    rcases hd with h | h | h <;> omega

/-- C1 witness: four concrete 429 responses with `Retry-After: 2` and a
`rate limit exceeded` body produce three 2000 ms sleeps, four fetches,
and the final `ApiError 429` with the last body's message. -/
theorem rate_limited_gives_up_after_max_retries_witness :
    request (List.replicate 4 (FetchOutcome.response
        (⟨429, some 2, none, some ⟨"API rate limit exceeded", none⟩, 0, ()⟩ :
          HttpResponse Unit))) 0 =
      (.error ⟨"API rate limit exceeded", 429⟩, ⟨4, [2000, 2000, 2000]⟩) := by
  have h := (rate_limited_gives_up_after_max_retries
    (⟨429, some 2, none, some ⟨"API rate limit exceeded", none⟩, 0, ()⟩ : HttpResponse Unit)
    (⟨429, some 2, none, some ⟨"API rate limit exceeded", none⟩, 0, ()⟩ : HttpResponse Unit)
    (⟨429, some 2, none, some ⟨"API rate limit exceeded", none⟩, 0, ()⟩ : HttpResponse Unit)
    (⟨429, some 2, none, some ⟨"API rate limit exceeded", none⟩, 0, ()⟩ : HttpResponse Unit)
    [] rfl rfl rfl rfl rfl rfl rfl rfl).1
  simpa [List.replicate, MAX_RETRIES] using h

/-- Looking a key up after filtering that key out always misses. -/
theorem lookup_filter_self_eq_none {β : Type} (k : String)
    (l : List (String × β)) :
    (l.filter (fun kv => kv.1 != k)).lookup k = none := by
  induction l with
  | nil => rfl
  | cons kv tl ih =>
    rcases kv with ⟨a, b⟩
    by_cases h : a = k
    · simpa [List.filter_cons, h] using ih
    · have hbeq : (k == a) = false := beq_eq_false_iff_ne.mpr (Ne.symm h)
      simp only [List.filter_cons, bne_iff_ne, ne_eq, h, not_false_eq_true,
        decide_true_eq_true]
      simpa [List.lookup, hbeq] using ih

/-- C3: over a working store (no failure flags set), after
`set key data ttl` at time `now`, a `get key` at any time `t` with
`t - now ≤ ttl * 1000` (the stored TTL is the `set` argument in seconds,
converted to ms) returns exactly `data` and leaves the store unchanged;
a `get key` at any `t` with `t - now > ttl * 1000` misses and evicts the
entry from the underlying store, so a further `get key` at any time `t2`
whatsoever also misses. -/
theorem cache_get_ttl_contract {T : Type} (key : String) (data : T)
    (ttl now t t2 : Nat) (entries : List (String × CacheEntry T)) :
    ((t : Int) - (now : Int) ≤ ((ttl * 1000 : Nat) : Int) →
      CacheManager.get key t
          (CacheManager.set key data ttl now ⟨entries, false, false, false⟩) =
        (some data,
         CacheManager.set key data ttl now ⟨entries, false, false, false⟩))
    ∧ (((ttl * 1000 : Nat) : Int) < (t : Int) - (now : Int) →
      (CacheManager.get key t
          (CacheManager.set key data ttl now ⟨entries, false, false, false⟩)).1 = none
      ∧ ((CacheManager.get key t
          (CacheManager.set key data ttl now ⟨entries, false, false, false⟩)).2).entries.lookup
          (CacheManager.getCacheKey key) = none
      ∧ (CacheManager.get key t2
          ((CacheManager.get key t
            (CacheManager.set key data ttl now
              ⟨entries, false, false, false⟩)).2)).1 = none) := by
  have hset1 : CacheManager.set key data ttl now
      (⟨entries, false, false, false⟩ : ChromeStorage T) =
      ⟨(CacheManager.getCacheKey key, (⟨data, now, ttl * 1000⟩ : CacheEntry T)) ::
        entries.filter (fun kv => kv.1 != CacheManager.getCacheKey key),
       false, false, false⟩ := rfl
  rw [hset1]
  have hgd : getData (CacheManager.getCacheKey key)
      (⟨(CacheManager.getCacheKey key, (⟨data, now, ttl * 1000⟩ : CacheEntry T)) ::
        entries.filter (fun kv => kv.1 != CacheManager.getCacheKey key),
       false, false, false⟩ : ChromeStorage T) =
      some (⟨data, now, ttl * 1000⟩ : CacheEntry T) := by
    simp [getData, List.lookup]
  constructor
  · intro hle
    have hc : ¬ ((t : Int) - (now : Int) >
        (((⟨data, now, ttl * 1000⟩ : CacheEntry T).ttl : Nat) : Int)) := by
      simp only [CacheEntry.ttl]
      omega
    simp [CacheManager.get, hgd, hc]
    omega
  · intro hgt
    have hc : (t : Int) - (now : Int) >
        (((⟨data, now, ttl * 1000⟩ : CacheEntry T).ttl : Nat) : Int) := by
      simp only [CacheEntry.ttl]
      omega
    have hgeteq : CacheManager.get key t
        (⟨(CacheManager.getCacheKey key, (⟨data, now, ttl * 1000⟩ : CacheEntry T)) ::
          entries.filter (fun kv => kv.1 != CacheManager.getCacheKey key),
         false, false, false⟩ : ChromeStorage T) =
        (none,
         ⟨((CacheManager.getCacheKey key, (⟨data, now, ttl * 1000⟩ : CacheEntry T)) ::
            entries.filter (fun kv => kv.1 != CacheManager.getCacheKey key)).filter
            (fun kv => kv.1 != CacheManager.getCacheKey key),
          false, false, false⟩) := by
      simp [CacheManager.get, hgd, hc, CacheManager.delete, removeData]
      omega
    rw [hgeteq]
    refine ⟨rfl, lookup_filter_self_eq_none _ _, ?_⟩
    simp [CacheManager.get, getData, lookup_filter_self_eq_none]

/-- C3 witness: storing 42 under `k` with a 1 second TTL at time 0, a
read at 1000 ms hits with 42; a read at 1001 ms misses, evicts the
entry, and a later read at 5000 ms still misses. -/
theorem cache_get_ttl_contract_witness :
    CacheManager.get "k" 1000 (CacheManager.set "k" (42 : Nat) 1 0
        (⟨[], false, false, false⟩ : ChromeStorage Nat)) =
      (some 42, CacheManager.set "k" 42 1 0 ⟨[], false, false, false⟩)
    ∧ (CacheManager.get "k" 1001 (CacheManager.set "k" (42 : Nat) 1 0
        (⟨[], false, false, false⟩ : ChromeStorage Nat))).1 = none
    ∧ (CacheManager.get "k" 5000
        ((CacheManager.get "k" 1001 (CacheManager.set "k" (42 : Nat) 1 0
          (⟨[], false, false, false⟩ : ChromeStorage Nat))).2)).1 = none := by
  have h := cache_get_ttl_contract "k" (42 : Nat) 1 0 1000 5000 []
  have h2 := cache_get_ttl_contract "k" (42 : Nat) 1 0 1001 5000 []
  exact ⟨h.1 (by decide), (h2.2 (by decide)).1, (h2.2 (by decide)).2.2⟩

/-- C9: every cache operation is exception-free toward its caller — each
one is a total function on the storage state, and when the underlying
store primitive fails, `get` degrades to a miss that leaves the store
untouched, while `set`, `delete` and `clearAll` complete leaving the
store unchanged (the write/removal is silently skipped). -/
theorem cache_storage_failure_degrades :
    (∀ (T : Type) (key : String) (now : Nat) (s : ChromeStorage T),
       s.failGet = true → CacheManager.get key now s = (none, s))
  ∧ (∀ (T : Type) (key : String) (data : T) (ttl now : Nat) (s : ChromeStorage T),
       s.failSet = true → CacheManager.set key data ttl now s = s)
  ∧ (∀ (T : Type) (key : String) (s : ChromeStorage T),
       s.failRemove = true → CacheManager.delete key s = s)
  ∧ (∀ (T : Type) (s : ChromeStorage T),
       s.failGet = true ∨ s.failRemove = true → CacheManager.clearAll s = s) := by
  refine ⟨?_, ?_, ?_, ?_⟩
  · intro T key now s h
    simp [CacheManager.get, getData, h]
  · intro T key data ttl now s h
    simp [CacheManager.set, saveData, h]
  · intro T key s h
    simp [CacheManager.delete, removeData, h]
  · intro T s h
    rcases h with h | h
    · simp [CacheManager.clearAll, h]
    · simp only [CacheManager.clearAll, h]
      split
      · rfl
      · split
        · rfl
        · rfl

/-- C9 witness: on a one-entry store whose three primitives all fail,
`get` misses without touching the store and `set`, `delete`, `clearAll`
leave it unchanged. -/
theorem cache_storage_failure_degrades_witness :
    CacheManager.get "k" 0
        (⟨[("cache_k", ⟨7, 0, 1000⟩)], true, true, true⟩ : ChromeStorage Nat) =
      (none, ⟨[("cache_k", ⟨7, 0, 1000⟩)], true, true, true⟩)
    ∧ CacheManager.set "k" (9 : Nat) 300 0
        (⟨[("cache_k", ⟨7, 0, 1000⟩)], true, true, true⟩ : ChromeStorage Nat) =
      ⟨[("cache_k", ⟨7, 0, 1000⟩)], true, true, true⟩
    ∧ CacheManager.delete "k"
        (⟨[("cache_k", ⟨7, 0, 1000⟩)], true, true, true⟩ : ChromeStorage Nat) =
      ⟨[("cache_k", ⟨7, 0, 1000⟩)], true, true, true⟩
    ∧ CacheManager.clearAll
        (⟨[("cache_k", ⟨7, 0, 1000⟩)], true, true, true⟩ : ChromeStorage Nat) =
      ⟨[("cache_k", ⟨7, 0, 1000⟩)], true, true, true⟩ := by
  refine ⟨?_, ?_, ?_, ?_⟩
  · exact cache_storage_failure_degrades.1 Nat "k" 0 _ rfl
  · exact cache_storage_failure_degrades.2.1 Nat "k" 9 300 0 _ rfl
  · exact cache_storage_failure_degrades.2.2.1 Nat "k" _ rfl
  · exact cache_storage_failure_degrades.2.2.2 Nat _ (Or.inl rfl)

/-- A closed repository value used by the concrete pagination scenarios;
the `id` marks which page the item came from. -/
def dummyRepo (n : Nat) : Repository :=
  ⟨n, "repo", "owner/repo", ⟨"owner", "User"⟩, "", none, false,
   "2024-01-01T00:00:00Z", "2024-01-01T00:00:00Z", 0, none⟩

/-- Page environment with pages of sizes 100, 100, 37 (pages past the
third would be full again, so only the short page can stop the loop). -/
def pagesShort : Nat → Except ApiError (List Repository) := fun p =>
  if p = 1 then .ok (List.replicate 100 (dummyRepo 1))
  else if p = 2 then .ok (List.replicate 100 (dummyRepo 2))
  else if p = 3 then .ok (List.replicate 37 (dummyRepo 3))
  else .ok (List.replicate 100 (dummyRepo p))

/-- Page environment in which every page is full. -/
def pagesFull : Nat → Except ApiError (List Repository) := fun p =>
  .ok (List.replicate 100 (dummyRepo p))

/-- Every page number the pagination loop requests is either its
starting page or at most 10. -/
theorem fetchRepositoriesLoop_requested_le
    (pages : Nat → Except ApiError (List Repository)) :
    ∀ (fuel page : Nat) (acc : List Repository) (q : Nat),
      q ∈ (fetchRepositoriesLoop pages page fuel acc).2 → q = page ∨ q ≤ 10 := by
  intro fuel
  induction fuel with
  | zero =>
    intro page acc q hq
    simp [fetchRepositoriesLoop] at hq
  | succ fuel ih =>
    intro page acc q hq
    simp only [fetchRepositoriesLoop] at hq
    rcases hp : pages page with e | response
    · rw [hp] at hq
      simp at hq
      exact Or.inl hq
    · rw [hp] at hq
      by_cases h0 : response.length = 0
      · simp [h0] at hq
        exact Or.inl hq
      · by_cases hshort : response.length < perPage
        · simp [h0, hshort] at hq
          exact Or.inl hq
        · by_cases hlimit : page + 1 > 10
          · simp [h0, hshort, hlimit] at hq
            exact Or.inl hq
          · simp [h0, hshort, hlimit] at hq
            rcases hq with hq | hq
            · exact Or.inl hq
            · rcases ih (page + 1) (acc ++ response) q hq with h | h
              · right
                omega
              · exact Or.inr h

set_option maxRecDepth 100000 in
/-- C4: the repository fetch requests pages in order starting at page 1
and concatenates them in request order: on pages of sizes [100, 100, 37]
it returns the 237 items of pages 1, 2, 3 concatenated after requesting
exactly pages [1, 2, 3]; on all-full pages it returns 1000 items after
requesting exactly pages [1, …, 10] (page 11 is never requested); and in
every page environment whatsoever, no page beyond 10 is ever requested. -/
theorem repository_pagination_drains_and_stops :
    fetchRepositoriesLoop pagesShort 1 10 [] =
      (.ok (List.replicate 100 (dummyRepo 1) ++ List.replicate 100 (dummyRepo 2)
        ++ List.replicate 37 (dummyRepo 3)), [1, 2, 3])
    ∧ (fetchRepositoriesLoop pagesFull 1 10 []).1.map List.length = .ok 1000
    ∧ (fetchRepositoriesLoop pagesFull 1 10 []).2 =
        [1, 2, 3, 4, 5, 6, 7, 8, 9, 10]
    ∧ ∀ (pages : Nat → Except ApiError (List Repository)) (q : Nat),
        q ∈ (fetchRepositoriesLoop pages 1 10 []).2 → q ≤ 10 := by
  refine ⟨by rfl, by rfl, by rfl, ?_⟩
  intro pages q hq
  rcases fetchRepositoriesLoop_requested_le pages 10 1 [] q hq with h | h
  · omega
  · exact h

/-- C4 witness: instantiating the universally quantified stopping bound
at the all-full page environment and the last requested page. -/
theorem repository_pagination_drains_and_stops_witness :
    (10 : Nat) ∈ (fetchRepositoriesLoop pagesFull 1 10 []).2 ∧
    (10 : Nat) ≤ 10 := by
  refine ⟨?_, ?_⟩
  · rw [repository_pagination_drains_and_stops.2.2.1]
    simp
  · exact repository_pagination_drains_and_stops.2.2.2 pagesFull 10
      (by rw [repository_pagination_drains_and_stops.2.2.1]; simp)

/-- C5: a client `ApiError` reaching a per-resource fetch on a cache miss
propagates to the caller unmodified — for the user, organizations,
mentioned-issues and repositories fetches — with the single exception of
the projects fetch, which downgrades the failure to an empty list. -/
theorem api_error_propagates_except_projects :
    (∀ (e : ApiError) (tGet tSet : Nat) (s : ChromeStorage User),
       (CacheManager.get "user" tGet s).1 = none →
       fetchUser (.error e) tGet tSet s = .error e)
  ∧ (∀ (e : ApiError) (tGet tSet : Nat) (s : ChromeStorage (List Organization)),
       (CacheManager.get "organizations" tGet s).1 = none →
       fetchOrganizations (.error e) tGet tSet s = .error e)
  ∧ (∀ (e : ApiError) (tGet tSet : Nat) (s : ChromeStorage (List Issue)),
       (CacheManager.get "issues_mentioned" tGet s).1 = none →
       fetchMentionedIssues (.error e) tGet tSet s = .error e)
  ∧ (∀ (pages : Nat → Except ApiError (List Repository)) (e : ApiError)
       (tGet tSet : Nat) (s : ChromeStorage (List Repository)),
       (CacheManager.get "repositories" tGet s).1 = none →
       (fetchRepositoriesLoop pages 1 10 []).1 = .error e →
       (fetchRepositories pages tGet tSet s).1 = .error e)
  ∧ (∀ (e : ApiError) (tGet tSet : Nat) (s : ChromeStorage (List Project)),
       (CacheManager.get "projects" tGet s).1 = none →
       fetchProjects (.error e) tGet tSet s =
         .ok ([], (CacheManager.get "projects" tGet s).2)) := by
  refine ⟨?_, ?_, ?_, ?_, ?_⟩
  · intro e tG tS s h
    rcases hm : CacheManager.get "user" tG s with ⟨o, s2⟩
    rw [hm] at h
    simp only at h
    subst h
    simp [fetchUser, hm]
  · intro e tG tS s h
    rcases hm : CacheManager.get "organizations" tG s with ⟨o, s2⟩
    rw [hm] at h
    simp only at h
    subst h
    simp [fetchOrganizations, hm]
  · intro e tG tS s h
    rcases hm : CacheManager.get "issues_mentioned" tG s with ⟨o, s2⟩
    rw [hm] at h
    simp only at h
    subst h
    simp [fetchMentionedIssues, hm]
  · intro pages e tG tS s h hloop
    rcases hm : CacheManager.get "repositories" tG s with ⟨o, s2⟩
    rw [hm] at h
    simp only at h
    subst h
    rcases hl : fetchRepositoriesLoop pages 1 10 [] with ⟨res, reqs⟩
    rw [hl] at hloop
    simp only at hloop
    subst hloop
    simp [fetchRepositories, hm, hl]
  · intro e tG tS s h
    rcases hm : CacheManager.get "projects" tG s with ⟨o, s2⟩
    rw [hm] at h
    simp only at h
    subst h
    simp [fetchProjects, hm]

/-- C5 witness: on empty stores (cache miss everywhere) a client failure
`HTTP 500` propagates from the user, organizations, issues and
repositories fetches, while the projects fetch returns the empty list. -/
theorem api_error_propagates_except_projects_witness :
    fetchUser (.error ⟨"HTTP 500", 500⟩) 0 0
        (⟨[], false, false, false⟩ : ChromeStorage User) =
      .error ⟨"HTTP 500", 500⟩
    ∧ fetchOrganizations (.error ⟨"HTTP 500", 500⟩) 0 0
        (⟨[], false, false, false⟩ : ChromeStorage (List Organization)) =
      .error ⟨"HTTP 500", 500⟩
    ∧ fetchMentionedIssues (.error ⟨"HTTP 500", 500⟩) 0 0
        (⟨[], false, false, false⟩ : ChromeStorage (List Issue)) =
      .error ⟨"HTTP 500", 500⟩
    ∧ (fetchRepositories (fun _ => .error ⟨"HTTP 500", 500⟩) 0 0
        (⟨[], false, false, false⟩ : ChromeStorage (List Repository))).1 =
      .error ⟨"HTTP 500", 500⟩
    ∧ fetchProjects (.error ⟨"HTTP 500", 500⟩) 0 0
        (⟨[], false, false, false⟩ : ChromeStorage (List Project)) =
      .ok ([], ⟨[], false, false, false⟩) := by
  refine ⟨?_, ?_, ?_, ?_, ?_⟩
  · exact api_error_propagates_except_projects.1 ⟨"HTTP 500", 500⟩ 0 0 _ rfl
  · exact api_error_propagates_except_projects.2.1 ⟨"HTTP 500", 500⟩ 0 0 _ rfl
  · exact api_error_propagates_except_projects.2.2.1 ⟨"HTTP 500", 500⟩ 0 0 _ rfl
  · exact api_error_propagates_except_projects.2.2.2.1
      (fun _ => .error ⟨"HTTP 500", 500⟩) ⟨"HTTP 500", 500⟩ 0 0 _ rfl rfl
  · exact api_error_propagates_except_projects.2.2.2.2 ⟨"HTTP 500", 500⟩ 0 0 _ rfl

/-- A closed user value used by concrete scenarios. -/
def userEx : User := ⟨"bob", 1, "", "", none, none⟩

/-- A closed project value used by concrete scenarios. -/
def projectEx : Project :=
  ⟨1, "proj", none, .open, "", "2024-01-01", "2024-02-01", userEx⟩

/-- C10: when the projects fetch fails and is downgraded to an empty
list, no cache entry is written — the store (with no `projects` entry
and working primitives) comes back exactly unchanged — so a subsequent
`fetchProjects` consults the client again: handed a fresh network result
`d`, it returns `d` (and only then caches it), not a cached empty list. -/
theorem projects_failure_leaves_cache_unwritten (e : ApiError)
    (d : List Project) (tGet tSet tGet2 tSet2 : Nat)
    (entries : List (String × CacheEntry (List Project)))
    (hnone : entries.lookup (CacheManager.getCacheKey "projects") = none) :
    fetchProjects (.error e) tGet tSet ⟨entries, false, false, false⟩ =
      .ok ([], ⟨entries, false, false, false⟩)
    ∧ fetchProjects (.ok d) tGet2 tSet2 ⟨entries, false, false, false⟩ =
      .ok (d, CacheManager.set "projects" d (5 * 60) tSet2
        ⟨entries, false, false, false⟩) := by
  have hget : ∀ tG : Nat, CacheManager.get "projects" tG
      (⟨entries, false, false, false⟩ : ChromeStorage (List Project)) =
      (none, ⟨entries, false, false, false⟩) := by
    intro tG
    simp [CacheManager.get, getData, hnone]
  constructor
  · simp [fetchProjects, hget]
  · simp [fetchProjects, hget]

/-- C10 witness: on the empty store, a failed projects fetch returns the
empty list with the store untouched, and the follow-up fetch returns the
fresh one-project network result. -/
theorem projects_failure_leaves_cache_unwritten_witness :
    fetchProjects (.error ⟨"HTTP 500", 500⟩) 0 0
        (⟨[], false, false, false⟩ : ChromeStorage (List Project)) =
      .ok ([], ⟨[], false, false, false⟩)
    ∧ fetchProjects (.ok [projectEx]) 1 1
        (⟨[], false, false, false⟩ : ChromeStorage (List Project)) =
      .ok ([projectEx], CacheManager.set "projects" [projectEx] (5 * 60) 1
        ⟨[], false, false, false⟩) := by
  exact projects_failure_leaves_cache_unwritten ⟨"HTTP 500", 500⟩ [projectEx]
    0 0 1 1 [] rfl

/-- Specification of a stable descending sort by an integer key through
`List.mergeSort`: the result is a permutation of the input, is pairwise
descending in the key, and any two elements with equal keys keep their
original relative order. -/
theorem mergeSort_byKeyDesc_spec {α : Type} (key : α → Int) (l : List α) :
    (l.mergeSort (fun a b => decide (key b ≤ key a))).Perm l
  ∧ List.Sorted (fun a b => key b ≤ key a)
      (l.mergeSort (fun a b => decide (key b ≤ key a)))
  ∧ ∀ a b, key a = key b → [a, b].Sublist l →
      [a, b].Sublist (l.mergeSort (fun a b => decide (key b ≤ key a))) := by
  have htrans : ∀ a b c : α, (fun a b => decide (key b ≤ key a)) a b = true →
      (fun a b => decide (key b ≤ key a)) b c = true →
      (fun a b => decide (key b ≤ key a)) a c = true := by
    intro a b c hab hbc
    simp only [decide_eq_true_eq] at hab hbc ⊢
    exact le_trans hbc hab
  have htotal : ∀ a b : α, ((fun a b => decide (key b ≤ key a)) a b
      || (fun a b => decide (key b ≤ key a)) b a) = true := by
    intro a b
    simp only [Bool.or_eq_true, decide_eq_true_eq]
    exact le_total (key b) (key a)
  refine ⟨List.mergeSort_perm l _, ?_, ?_⟩
  · have h := List.sorted_mergeSort htrans htotal l
    exact h.imp (fun hab => by simpa using hab)
  · intro a b hk hsub
    refine List.sublist_mergeSort htrans htotal ?_ hsub
    simp [hk]

/-- A `new Date(·).getTime()` table for the three dates of the spec's
sorting example (epoch milliseconds of the respective UTC midnights). -/
def exTime : String → Int := fun s =>
  if s = "2024-01-01" then 1704067200000
  else if s = "2024-02-01" then 1706745600000
  else if s = "2024-03-01" then 1709251200000
  else 0

/-- A closed issue value, parametrized by its `updated_at` date. -/
def issueEx (d : String) : Issue :=
  ⟨0, 1, "t", .open, "", "", userEx, [], "2024-01-01", d, none⟩

unseal List.merge List.mergeSort in
/-- C7: each of the three sorting functions returns a permutation of its
input ordered by `updated_at` descending (under the ambient date parser
`getTime`), keeping elements with equal `updated_at` keys in their
original relative order; in particular, issues dated
2024-01-01 / 2024-03-01 / 2024-02-01 sort to
2024-03-01 / 2024-02-01 / 2024-01-01. -/
theorem sorts_by_updated_descending_stable :
    (∀ (getTime : String → Int) (repositories : List Repository),
       (sortRepositoriesByUpdated getTime repositories).Perm repositories
     ∧ List.Sorted (fun a b => getTime b.updated_at ≤ getTime a.updated_at)
         (sortRepositoriesByUpdated getTime repositories)
     ∧ ∀ a b, getTime a.updated_at = getTime b.updated_at →
         [a, b].Sublist repositories →
         [a, b].Sublist (sortRepositoriesByUpdated getTime repositories))
  ∧ (∀ (getTime : String → Int) (issues : List Issue),
       (sortIssuesByUpdated getTime issues).Perm issues
     ∧ List.Sorted (fun a b => getTime b.updated_at ≤ getTime a.updated_at)
         (sortIssuesByUpdated getTime issues)
     ∧ ∀ a b, getTime a.updated_at = getTime b.updated_at →
         [a, b].Sublist issues →
         [a, b].Sublist (sortIssuesByUpdated getTime issues))
  ∧ (∀ (getTime : String → Int) (projects : List Project),
       (sortProjectsByUpdated getTime projects).Perm projects
     ∧ List.Sorted (fun a b => getTime b.updated_at ≤ getTime a.updated_at)
         (sortProjectsByUpdated getTime projects)
     ∧ ∀ a b, getTime a.updated_at = getTime b.updated_at →
         [a, b].Sublist projects →
         [a, b].Sublist (sortProjectsByUpdated getTime projects))
  ∧ sortIssuesByUpdated exTime
      [issueEx "2024-01-01", issueEx "2024-03-01", issueEx "2024-02-01"] =
      [issueEx "2024-03-01", issueEx "2024-02-01", issueEx "2024-01-01"] := by
  refine ⟨?_, ?_, ?_, ?_⟩
  · intro getTime repositories
    exact mergeSort_byKeyDesc_spec (fun r => getTime r.updated_at) repositories
  · intro getTime issues
    exact mergeSort_byKeyDesc_spec (fun i => getTime i.updated_at) issues
  · intro getTime projects
    exact mergeSort_byKeyDesc_spec (fun p => getTime p.updated_at) projects
  · decide

/-- C7 witness: two issues sharing the same `updated_at` key stay in
their original relative order after sorting. -/
theorem sorts_by_updated_descending_stable_witness :
    [issueEx "2024-01-01", issueEx "2024-02-01"].Sublist
      (sortIssuesByUpdated (fun _ => 0)
        [issueEx "2024-01-01", issueEx "2024-02-01"]) := by
  exact (sorts_by_updated_descending_stable.2.1 (fun _ => 0)
      [issueEx "2024-01-01", issueEx "2024-02-01"]).2.2
    (issueEx "2024-01-01") (issueEx "2024-02-01") rfl (List.Sublist.refl _)

/-- C8: every incoming message is answered with either a
`{success: true, data}` payload or a `{success: false, error}` envelope
whose error is a string — the listener's catch converts any thrown
handler error into the envelope, so nothing escapes the boundary — and a
message of unknown type yields the `Unknown message type` error envelope
rather than being ignored. -/
theorem orchestrator_envelope_total :
    (∀ (m : Message) (env : HandlerEnv),
       ((onMessageResponse m env).success = true
         ∧ (onMessageResponse m env).error = none
         ∧ (onMessageResponse m env).data.isSome = true)
       ∨ ((onMessageResponse m env).success = false
         ∧ (onMessageResponse m env).data = none
         ∧ (onMessageResponse m env).error.isSome = true))
  ∧ ∀ (t : String) (env : HandlerEnv),
      onMessageResponse (.unknown t) env =
        ⟨false, none, some ("Unknown message type: " ++ t)⟩ := by
  constructor
  · intro m env
    unfold onMessageResponse
    cases h : handleMessage m env with
    | error e =>
      right
      simp
    | ok d =>
      left
      simp
  · intro t env
    rfl
